import Mathlib

/-
Verification of the record store, importer and query layer of the chaihu
repository (testUI.py, class BupleurumMorphologyDB).

The Python class wraps an SQLite table `bupleurum_species`.  The embedding
models the table as a Lean list of `Species` records in insertion order
(the surrogate `id` column is the list position and the `created_at`
timestamp column is not modelled; neither takes part in any behaviour
verified here).  DataFrame rows are association lists from column-name
strings to cells; a cell is a string, a rational number (standing for a
numeric spreadsheet cell) or NaN/missing.  Python string primitives
(`strip`, `lower`, `float`, `int`, `split`) are embedded as executable
functions on `String`/`List Char`; `float`/`int` are modelled on the plain
decimal literals the importer actually feeds them (optional sign, digits,
one optional decimal point), returning `Option` in place of raising, with
rationals standing for IEEE doubles (exact on the short decimal inputs the
dataset uses).
-/

/-- Python `str.lower` (ASCII letters; CJK characters are unaffected). -/
def pyLower (s : String) : String := String.mk (s.data.map Char.toLower)

/-- Python `str.strip`: drop whitespace from both ends of a string. -/
def pyStrip (s : String) : String :=
  String.mk (((s.data.dropWhile Char.isWhitespace).reverse.dropWhile
    Char.isWhitespace).reverse)

/-- Value of a list of decimal digit characters. -/
def digitsVal (cs : List Char) : Nat := cs.foldl (fun a c => a * 10 + (c.toNat - 48)) 0

/-- Unsigned decimal literal: digits with at most one decimal point.
Returns `none` where Python `float` would raise `ValueError`. -/
def pyFloatCore (cs : List Char) : Option ℚ :=
  match cs.span Char.isDigit with
  | (ip, []) => if ip.isEmpty then none else some (mkRat (digitsVal ip) 1)
  | (ip, c :: rest) =>
    if c = '.' then
      match rest.span Char.isDigit with
      | (fp, []) =>
        if ip.isEmpty && fp.isEmpty then none
        else some (mkRat (digitsVal ip * 10 ^ fp.length + digitsVal fp) (10 ^ fp.length))
      | (_, _ :: _) => none
    else none

/-- Python `float(s)` on decimal literals: surrounding whitespace ignored,
optional sign, then an unsigned decimal literal. -/
def pyFloat (s : String) : Option ℚ :=
  match (pyStrip s).data with
  | '-' :: rest => (pyFloatCore rest).map (fun q => -q)
  | '+' :: rest => pyFloatCore rest
  | cs => pyFloatCore cs

/-- Unsigned integer literal, all digits. -/
def pyIntCore (cs : List Char) : Option ℤ :=
  if cs.isEmpty then none
  else if cs.all Char.isDigit then some (digitsVal cs) else none

/-- Python `int(s)` on a string: integer literal with optional sign. -/
def pyIntOfString (s : String) : Option ℤ :=
  match (pyStrip s).data with
  | '-' :: rest => (pyIntCore rest).map (fun n => -n)
  | '+' :: rest => pyIntCore rest
  | cs => pyIntCore cs

/-- Python `int(x)` applied to a float value: truncation toward zero. -/
def ratTrunc (q : ℚ) : ℤ :=
  if 0 ≤ q.num then ((q.num.toNat / q.den : ℕ) : ℤ)
  else -(((((-q.num).toNat) / q.den : ℕ) : ℤ))

/-- Decimal expansion digits of `n / d` (with `n < d`), at most `fuel` digits. -/
def fracDigits : Nat → Nat → Nat → List Char
  | 0, _, _ => []
  | Nat.succ fuel, n, d =>
    if n = 0 then []
    else Char.ofNat (48 + n * 10 / d) :: fracDigits fuel (n * 10 % d) d

/-- Python `str(x)` for a float value `x`: decimal rendering with at least one
fractional digit (`3.0`, `-3.5`).  Exact for terminating decimal expansions,
which covers every numeric cell the importer can round-trip. -/
def pyStrNum (q : ℚ) : String :=
  let n := q.num.natAbs
  let frac := fracDigits 17 (n % q.den) q.den
  (if q.num < 0 then "-" else "") ++ toString (n / q.den) ++ "." ++
    (if frac.isEmpty then "0" else String.mk frac)

/-- Python `str.split` on a single separator character. -/
def splitDash : List Char → List (List Char)
  | [] => [[]]
  | c :: cs =>
    if c = '-' then [] :: splitDash cs
    else match splitDash cs with
      | [] => [[c]]
      | h :: t => (c :: h) :: t

/-- Embeds `BupleurumMorphologyDB._parse_numeric` (testUI.py lines 245-262):
empty and placeholder strings give `None`; a string containing a dash is
split on the dash and only the first part is parsed; otherwise the whole
string is parsed as a float.  Any parse failure gives `None`. -/
def parse_numeric (value : String) : Option ℚ :=
  if value = "" ∨ pyLower value ∈ (["未明确", "nan", ""] : List String) then none
  else if '-' ∈ value.data then
    pyFloat (pyStrip (String.mk ((splitDash value.data).headD [])))
  else
    pyFloat (pyStrip value)

/-- Embeds `BupleurumMorphologyDB._parse_integer` (testUI.py lines 264-267):
parse as numeric, then truncate to an integer. -/
def parse_integer (value : String) : Option ℤ :=
  (parse_numeric value).map ratTrunc

/-- A pandas cell as the importer sees it: a string, a numeric value
(spreadsheet number, modelled as a rational), or NaN (also standing for a
missing value produced by `Series.get` on an absent label). -/
inductive Cell
  | str (s : String)
  | num (q : ℚ)
  | nan
  deriving DecidableEq, Repr

/-- A DataFrame row: an association list from column names to cells. -/
abbrev Row := List (String × Cell)

/-- `row.get(col)` with no default: `none` when the column is absent. -/
def rowLookup (row : Row) (col : String) : Option Cell :=
  (row.find? (fun p => p.1 == col)).map (fun p => p.2)

/-- `row.get(col, dflt)`. -/
def rowGet (row : Row) (col : String) (dflt : Cell) : Cell :=
  (rowLookup row col).getD dflt

/-- `pd.notna(x)`: false exactly on NaN and missing values. -/
def notna : Option Cell → Bool
  | none => false
  | some Cell.nan => false
  | some _ => true

/-- Python `str(x)` on a cell (`str(float(\x7bnan\x7d)) = "nan"`). -/
def pyStr : Cell → String
  | Cell.str s => s
  | Cell.num q => pyStrNum q
  | Cell.nan => "nan"

/-- One row of the `bupleurum_species` table (testUI.py lines 125-160).
The surrogate `id` and the `created_at` timestamp are not modelled; all
remaining columns are kept, with `Option` for nullable REAL/INTEGER columns. -/
structure Species where
  serial_number : ℤ
  species_name : String
  growth_form : String
  min_height_cm : Option ℚ
  max_height_cm : Option ℚ
  root_color : String
  leaf_max_length_cm : Option ℚ
  leaf_min_length_cm : Option ℚ
  leaf_min_width_mm : Option ℚ
  leaf_max_width_mm : Option ℚ
  leaf_shape : String
  leaf_color : String
  min_vein_number : Option ℤ
  max_vein_number : Option ℤ
  min_inflorescence_diameter_cm : Option ℚ
  max_inflorescence_diameter_cm : Option ℚ
  bract_number : String
  bract_shape : String
  min_bract_length_mm : Option ℚ
  max_bract_length_mm : Option ℚ
  ray_number : String
  min_ray_length_cm : Option ℚ
  max_ray_length_cm : Option ℚ
  umbellet_diameter_mm : String
  bracteole_number : String
  bracteole_shape : String
  umbellet_number : String
  petal_color : String
  fruit_shape : String
  fruit_color : String
  deriving DecidableEq, Repr

/-- The store: the `bupleurum_species` table in insertion (rowid) order. -/
abbrev DB := List Species

/-- Names of the filterable columns of `bupleurum_species`. -/
inductive Col
  | serial_number | species_name | growth_form | min_height_cm | max_height_cm
  | root_color | leaf_max_length_cm | leaf_min_length_cm | leaf_min_width_mm
  | leaf_max_width_mm | leaf_shape | leaf_color | min_vein_number
  | max_vein_number | min_inflorescence_diameter_cm
  | max_inflorescence_diameter_cm | bract_number | bract_shape
  | min_bract_length_mm | max_bract_length_mm | ray_number | min_ray_length_cm
  | max_ray_length_cm | umbellet_diameter_mm | bracteole_number
  | bracteole_shape | umbellet_number | petal_color | fruit_shape | fruit_color
  deriving DecidableEq, Repr

/-- An SQLite value: TEXT, REAL, INTEGER or NULL. -/
inductive SqlVal
  | text (s : String)
  | real (q : ℚ)
  | int (n : ℤ)
  | null
  deriving DecidableEq, Repr

/-- A nullable REAL column value. -/
def optReal : Option ℚ → SqlVal
  | none => SqlVal.null
  | some q => SqlVal.real q

/-- A nullable INTEGER column value. -/
def optInt : Option ℤ → SqlVal
  | none => SqlVal.null
  | some n => SqlVal.int n

/-- The SQLite value stored in a given column of a given row. -/
def getField (sp : Species) : Col → SqlVal
  | Col.serial_number => SqlVal.int sp.serial_number
  | Col.species_name => SqlVal.text sp.species_name
  | Col.growth_form => SqlVal.text sp.growth_form
  | Col.min_height_cm => optReal sp.min_height_cm
  | Col.max_height_cm => optReal sp.max_height_cm
  | Col.root_color => SqlVal.text sp.root_color
  | Col.leaf_max_length_cm => optReal sp.leaf_max_length_cm
  | Col.leaf_min_length_cm => optReal sp.leaf_min_length_cm
  | Col.leaf_min_width_mm => optReal sp.leaf_min_width_mm
  | Col.leaf_max_width_mm => optReal sp.leaf_max_width_mm
  | Col.leaf_shape => SqlVal.text sp.leaf_shape
  | Col.leaf_color => SqlVal.text sp.leaf_color
  | Col.min_vein_number => optInt sp.min_vein_number
  | Col.max_vein_number => optInt sp.max_vein_number
  | Col.min_inflorescence_diameter_cm => optReal sp.min_inflorescence_diameter_cm
  | Col.max_inflorescence_diameter_cm => optReal sp.max_inflorescence_diameter_cm
  | Col.bract_number => SqlVal.text sp.bract_number
  | Col.bract_shape => SqlVal.text sp.bract_shape
  | Col.min_bract_length_mm => optReal sp.min_bract_length_mm
  | Col.max_bract_length_mm => optReal sp.max_bract_length_mm
  | Col.ray_number => SqlVal.text sp.ray_number
  | Col.min_ray_length_cm => optReal sp.min_ray_length_cm
  | Col.max_ray_length_cm => optReal sp.max_ray_length_cm
  | Col.umbellet_diameter_mm => SqlVal.text sp.umbellet_diameter_mm
  | Col.bracteole_number => SqlVal.text sp.bracteole_number
  | Col.bracteole_shape => SqlVal.text sp.bracteole_shape
  | Col.umbellet_number => SqlVal.text sp.umbellet_number
  | Col.petal_color => SqlVal.text sp.petal_color
  | Col.fruit_shape => SqlVal.text sp.fruit_shape
  | Col.fruit_color => SqlVal.text sp.fruit_color

/-- Text-column extraction used throughout `import_from_excel_df`
(for example line 203): `str(row.get(col, pyStr)).strip() if pd.notna(row.get(col))
else pyStr` where the default and the fallback are the empty string. -/
def getText (row : Row) (col : String) : String :=
  if notna (rowLookup row col) then pyStrip (pyStr (rowGet row col (Cell.str "")))
  else ""

/-- REAL-column extraction (for example line 204):
`self._parse_numeric(str(row.get(col, pyStr)))` with empty-string default. -/
def getNum (row : Row) (col : String) : Option ℚ :=
  parse_numeric (pyStr (rowGet row col (Cell.str "")))

/-- INTEGER-column extraction (line 213):
`self._parse_integer(str(row.get(col, pyStr)))` with empty-string default. -/
def getIntCol (row : Row) (col : String) : Option ℤ :=
  parse_integer (pyStr (rowGet row col (Cell.str "")))

/-- Python `int(x)` on a cell, as an `Except` because it can raise. -/
def pyInt : Cell → Except String ℤ
  | Cell.str s =>
    match pyIntOfString s with
    | some n => Except.ok n
    | none => Except.error ("invalid literal for int() with base 10: " ++ s)
  | Cell.num q => Except.ok (ratTrunc q)
  | Cell.nan => Except.error "cannot convert float NaN to integer"

/-- The `serial_number` entry (line 201):
`int(row.get(serial-col, 0)) if pd.notna(row.get(serial-col)) else 0`,
the only entry of the `species_data` dict whose coercion can raise. -/
def serialOf (row : Row) : Except String ℤ :=
  if notna (rowLookup row "序号") then pyInt (rowGet row "序号" (Cell.num 0))
  else Except.ok 0

/-- The `species_data` dict (lines 200-231) minus the serial number. -/
def mkSpecies (row : Row) (species_name : String) (serial : ℤ) : Species :=
  { serial_number := serial
    species_name := species_name
    growth_form := getText row "株型"
    min_height_cm := getNum row "最小株高(厘米)"
    max_height_cm := getNum row "最大株高(厘米)"
    root_color := getText row "根颜色"
    leaf_max_length_cm := getNum row "叶最大长度(厘米)"
    leaf_min_length_cm := getNum row "叶最小长度(厘米)"
    leaf_min_width_mm := getNum row "叶最小宽度(毫米)"
    leaf_max_width_mm := getNum row "叶最大宽度(毫米)"
    leaf_shape := getText row "叶形"
    leaf_color := getText row "叶颜色"
    min_vein_number := getIntCol row "最小叶脉数"
    max_vein_number := getIntCol row "最大叶脉数"
    min_inflorescence_diameter_cm := getNum row "最小花序直径(厘米)"
    max_inflorescence_diameter_cm := getNum row "最大花序直径(厘米)"
    bract_number := getText row "总苞片数量"
    bract_shape := getText row "总苞片形状"
    min_bract_length_mm := getNum row "总苞片最小长度(毫米)"
    max_bract_length_mm := getNum row "总苞片最大长度(毫米)"
    ray_number := getText row "伞辐数量"
    min_ray_length_cm := getNum row "最小伞辐长度(厘米)"
    max_ray_length_cm := getNum row "最大伞辐长度(厘米)"
    umbellet_diameter_mm := getText row "小伞形花序直径(毫米)"
    bracteole_number := getText row "小总苞片数量"
    bracteole_shape := getText row "小总苞片形状"
    umbellet_number := getText row "小伞形花序数量"
    petal_color := getText row "花瓣颜色"
    fruit_shape := getText row "果形状"
    fruit_color := getText row "果颜色" }

/-- Building the full `species_data` dict for one row: the serial-number
coercion may raise (propagated as `Except.error`), everything else is total. -/
def buildSpeciesData (row : Row) (species_name : String) : Except String Species :=
  (serialOf row).map (mkSpecies row species_name)

/-- The natural-key extraction (line 188): `str(row.get(key-col, pyStr)).strip()`
with empty-string default. -/
def keyOf (row : Row) : String :=
  pyStrip (pyStr (rowGet row "物种" (Cell.str "")))

/-- `SELECT species_name FROM bupleurum_species`
(`get_all_species_names`, lines 365-370; a Python set, modelled as the
list of names with membership semantics). -/
def get_all_species_names (db : DB) : List String :=
  db.map (fun sp => sp.species_name)

/-- The loop state of `import_from_excel_df`: the table, the
`existing_species` name set, and the counters being accumulated. -/
structure ImportState where
  db : DB
  existing : List String
  success : ℕ
  failed : ℕ
  duplicates : ℕ
  errors : List String
  deriving DecidableEq, Repr

/-- One iteration of the `for idx, row in df.iterrows()` loop
(lines 181-241): skip index 0; a blank or `"nan"` key is a failure; a key
already in `existing_species` is a duplicate; otherwise build the data
(catching the one possible exception as the error branch) and insert. -/
def importStep (s : ImportState) (idx : ℕ) (row : Row) : ImportState :=
  if idx = 0 then s
  else
    let species_name := keyOf row
    if species_name = "" ∨ species_name = "nan" then
      { s with failed := s.failed + 1
               errors := s.errors ++
                 ["行" ++ toString (idx + 1) ++ ": 物种名称为空"] }
    else if species_name ∈ s.existing then
      { s with duplicates := s.duplicates + 1 }
    else
      match buildSpeciesData row species_name with
      | Except.ok sp =>
        { s with db := s.db ++ [sp]
                 success := s.success + 1
                 existing := s.existing ++ [species_name] }
      | Except.error e =>
        { s with failed := s.failed + 1
                 errors := s.errors ++
                   [pyStrip (pyStr (rowGet row "物种"
                     (Cell.str ("行" ++ toString (idx + 1))))) ++ ": " ++ e] }

/-- The loop of `import_from_excel_df` over the positionally indexed rows
(a DataFrame fresh from `pd.read_excel` has the range index 0,1,2,...). -/
def importRows (s : ImportState) (idx : ℕ) : List Row → ImportState
  | [] => s
  | r :: rest => importRows (importStep s idx r) (idx + 1) rest

/-- The report dict returned by `import_from_excel_df` (lines 170-176). -/
structure ImportReport where
  total : ℕ
  success : ℕ
  failed : ℕ
  errors : List String
  duplicates : ℕ
  deriving DecidableEq, Repr

/-- Embeds `BupleurumMorphologyDB.import_from_excel_df` (lines 168-243),
returning the table after the import together with the report. -/
def import_from_excel_df (db : DB) (df : List Row) : DB × ImportReport :=
  let fin := importRows
    { db := db, existing := get_all_species_names db,
      success := 0, failed := 0, duplicates := 0, errors := [] } 0 df
  (fin.db,
   { total := df.length, success := fin.success, failed := fin.failed,
     errors := fin.errors, duplicates := fin.duplicates })

/-- Strict lexicographic order on code points.  UTF-8 byte order agrees with
code-point order, so this is SQLite's BINARY collation on TEXT values. -/
def charListLt : List Char → List Char → Bool
  | [], [] => false
  | [], _ :: _ => true
  | _ :: _, [] => false
  | a :: as, b :: bs =>
    if a.toNat < b.toNat then true
    else if b.toNat < a.toNat then false
    else charListLt as bs

/-- `a` sorts strictly before `b` under SQLite's BINARY collation. -/
def strLt (a b : String) : Bool := charListLt a.data b.data

/-- Insert into a name-sorted list, after any records with an equal name. -/
def insertByName (sp : Species) : List Species → List Species
  | [] => [sp]
  | t :: ts =>
    if strLt sp.species_name t.species_name then sp :: t :: ts
    else t :: insertByName sp ts

/-- `ORDER BY species_name`: stable sort by natural key, BINARY collation. -/
def sortByName (l : List Species) : List Species := l.foldr insertByName []

/-- Containment of `needle` in `hay` as contiguous sublists. -/
def containsSub (hay needle : List Char) : Bool :=
  needle.isPrefixOf hay ||
    match hay with
    | [] => false
    | _ :: t => containsSub t needle

/-- SQLite `s LIKE pat` for the patterns built here, which wrap
the filter value as percent-wildcard, value, percent-wildcard: containment as
a substring, ASCII-case-insensitively (SQLite's default LIKE). -/
def likeContains (s pat : String) : Bool :=
  containsSub (pyLower s).data (pyLower pat).data

/-- The keyword clause of `search_species` (line 309): the query matches if
any of the three columns species_name, leaf_shape, fruit_shape contains it. -/
def matchesQuery (sp : Species) (query : String) : Bool :=
  likeContains sp.species_name query || likeContains sp.leaf_shape query ||
    likeContains sp.fruit_shape query

/-- The `numeric_fields` list of `search_species` (lines 318-326). -/
def numeric_fields : List Col :=
  [Col.min_height_cm, Col.max_height_cm,
   Col.leaf_min_length_cm, Col.leaf_max_length_cm,
   Col.leaf_min_width_mm, Col.leaf_max_width_mm,
   Col.min_vein_number, Col.max_vein_number,
   Col.min_inflorescence_diameter_cm, Col.max_inflorescence_diameter_cm,
   Col.min_bract_length_mm, Col.max_bract_length_mm,
   Col.min_ray_length_cm, Col.max_ray_length_cm]

/-- A value supplied for one filter: the UI passes strings for text columns
and numbers for numeric columns. -/
inductive FilterVal
  | text (s : String)
  | num (q : ℚ)
  deriving DecidableEq, Repr

/-- The text interpolated into the LIKE pattern for a filter value. -/
def filterValStr : FilterVal → String
  | FilterVal.text s => s
  | FilterVal.num q => pyStrNum q

/-- SQLite `column >= value` under three-valued logic: NULL compares to
nothing, and in SQLite's type order every numeric value is below every text
value. -/
def sqlGe (v : SqlVal) (w : FilterVal) : Bool :=
  match v, w with
  | SqlVal.null, _ => false
  | SqlVal.real q, FilterVal.num x => decide (x ≤ q)
  | SqlVal.int n, FilterVal.num x => decide (x ≤ (n : ℚ))
  | SqlVal.real _, FilterVal.text _ => false
  | SqlVal.int _, FilterVal.text _ => false
  | SqlVal.text _, FilterVal.num _ => true
  | SqlVal.text s, FilterVal.text t => !(strLt s t)

/-- The text SQLite feeds to LIKE for a stored value: TEXT as is, INTEGER
and REAL via their decimal renderings, NULL making the comparison NULL. -/
def sqlValLikeStr : SqlVal → Option String
  | SqlVal.text s => some s
  | SqlVal.int n => some (toString n)
  | SqlVal.real q => some (pyStrNum q)
  | SqlVal.null => none

/-- One `AND field ...` clause of `search_species` (lines 328-333): columns
in `numeric_fields` filter by lower bound, every other column by LIKE
containment. -/
def fieldMatches (sp : Species) (f : Col) (v : FilterVal) : Bool :=
  if f ∈ numeric_fields then sqlGe (getField sp f) v
  else
    match sqlValLikeStr (getField sp f) with
    | none => false
    | some s => likeContains s (filterValStr v)

/-- Embeds `BupleurumMorphologyDB.search_species` (lines 298-338): starting
from `WHERE 1=1`, a non-empty query adds the three-column keyword clause,
each filter adds its clause, all conjoined; the result is ordered by
species_name.  Filters are an association list standing for the Python
dict (unique keys). -/
def search_species (db : DB) (query : String)
    (filters : List (Col × FilterVal)) : List Species :=
  sortByName (db.filter (fun sp =>
    (query == "" || matchesQuery sp query) &&
      filters.all (fun fv => fieldMatches sp fv.1 fv.2)))

/-- Embeds `BupleurumMorphologyDB.get_all_species` (lines 283-288):
`SELECT * ... ORDER BY species_name LIMIT ?`, default limit 100. -/
def get_all_species (db : DB) (limit : ℕ := 100) : List Species :=
  (sortByName db).take limit

/-- Embeds `BupleurumMorphologyDB.get_species_by_name` (lines 290-296):
the first stored row with that exact name, if any. -/
def get_species_by_name (db : DB) (name : String) : Option Species :=
  db.find? (fun sp => sp.species_name == name)

/-- The statistics dict of `get_statistics` (lines 341-363). -/
structure Statistics where
  total_species : ℕ
  growth_forms : ℕ
  leaf_shapes : ℕ
  fruit_shapes : ℕ
  deriving DecidableEq, Repr

/-- Embeds `BupleurumMorphologyDB.get_statistics`: the row count and the
distinct counts of growth forms (all values) and of non-empty leaf and
fruit shapes. -/
def get_statistics (db : DB) : Statistics :=
  { total_species := db.length
    growth_forms := ((db.map (fun sp => sp.growth_form)).dedup).length
    leaf_shapes :=
      (((db.filter (fun sp => !(sp.leaf_shape == ""))).map
        (fun sp => sp.leaf_shape)).dedup).length
    fruit_shapes :=
      (((db.filter (fun sp => !(sp.fruit_shape == ""))).map
        (fun sp => sp.fruit_shape)).dedup).length }

/-- Embeds `BupleurumMorphologyDB.clear_database` (lines 379-384):
`DELETE FROM bupleurum_species`. -/
def clear_database (_db : DB) : DB := []

/-- `species_name` order used in the sortedness statements: `a` before `b`
when `b` is not strictly below `a`. -/
def nameLe (a b : Species) : Prop := strLt b.species_name a.species_name = false

/-- The running total of classified rows in an import state. -/
def counted (s : ImportState) : ℕ := s.success + s.failed + s.duplicates

theorem charListLt_irrefl : ∀ cs, charListLt cs cs = false := by
  intro cs
  induction cs with
  | nil => rfl
  | cons c t ih => simp [charListLt, ih]

theorem charListLt_cons_iff (x y : Char) (xs ys : List Char) :
    charListLt (x :: xs) (y :: ys) = true ↔
      x.toNat < y.toNat ∨ (x.toNat = y.toNat ∧ charListLt xs ys = true) := by
  simp only [charListLt]
  by_cases h1 : x.toNat < y.toNat
  · simp [h1]
  · by_cases h2 : y.toNat < x.toNat
    · simp [h1, h2, show x.toNat ≠ y.toNat by omega]
    · simp [h1, h2, show x.toNat = y.toNat by omega]

theorem charListLt_trans : ∀ (a b c : List Char), charListLt a b = true →
    charListLt b c = true → charListLt a c = true := by
  intro a
  induction a with
  | nil =>
    intro b c hab hbc
    cases b with
    | nil => exact Bool.noConfusion hab
    | cons b bs =>
      cases c with
      | nil => exact Bool.noConfusion hbc
      | cons c cs => rfl
  | cons a as ih =>
    intro b c hab hbc
    cases b with
    | nil => exact Bool.noConfusion hab
    | cons b bs =>
      cases c with
      | nil => exact Bool.noConfusion hbc
      | cons c cs =>
        rw [charListLt_cons_iff] at hab hbc ⊢
        rcases hab with h1 | ⟨h1, h1t⟩
        · rcases hbc with h2 | ⟨h2, h2t⟩
          · exact Or.inl (by omega)
          · exact Or.inl (by omega)
        · rcases hbc with h2 | ⟨h2, h2t⟩
          · exact Or.inl (by omega)
          · exact Or.inr ⟨by omega, ih bs cs h1t h2t⟩

theorem charListLt_eq_of_not_lt : ∀ (a b : List Char), charListLt a b = false →
    charListLt b a = false → a = b := by
  intro a
  induction a with
  | nil =>
    intro b hab _
    cases b with
    | nil => rfl
    | cons b bs => exact Bool.noConfusion hab
  | cons a as ih =>
    intro b hab hba
    cases b with
    | nil => exact Bool.noConfusion hba
    | cons b bs =>
      have habt := (charListLt_cons_iff a b as bs).not.mp (by simp [hab])
      have hbat := (charListLt_cons_iff b a bs as).not.mp (by simp [hba])
      push_neg at habt hbat
      have h3 : a.toNat = b.toNat := by omega
      have h4 : a = b := Char.ext (UInt32.ext h3)
      have h5 : charListLt as bs = false := by
        cases h6 : charListLt as bs with
        | false => rfl
        | true => exact absurd h6 (habt.2 h3)
      have h7 : charListLt bs as = false := by
        cases h6 : charListLt bs as with
        | false => rfl
        | true => exact absurd h6 (hbat.2 h3.symm)
      rw [h4, ih bs h5 h7]

theorem charListLt_asymm (a b : List Char) (h : charListLt a b = true) :
    charListLt b a = false := by
  cases hc : charListLt b a with
  | false => rfl
  | true =>
    have := charListLt_trans a b a h hc
    rw [charListLt_irrefl] at this
    exact absurd this (by simp)

theorem strLt_eq_of_not_lt {a b : String} (h1 : strLt a b = false)
    (h2 : strLt b a = false) : a = b := by
  cases a with
  | mk da =>
    cases b with
    | mk db => exact congrArg String.mk (charListLt_eq_of_not_lt da db h1 h2)

theorem perm_insertByName (sp : Species) (l : List Species) :
    (insertByName sp l).Perm (sp :: l) := by
  induction l with
  | nil => exact List.Perm.refl _
  | cons t ts ih =>
    by_cases h : strLt sp.species_name t.species_name = true
    · simp [insertByName, h]
    · simp only [insertByName, h, if_false]
      exact (List.Perm.cons t ih).trans (List.Perm.swap sp t ts)

theorem mem_insertByName {x sp : Species} {l : List Species} :
    x ∈ insertByName sp l ↔ x = sp ∨ x ∈ l :=
  (perm_insertByName sp l).mem_iff.trans (by simp)

theorem perm_sortByName (l : List Species) : (sortByName l).Perm l := by
  induction l with
  | nil => exact List.Perm.refl _
  | cons x xs ih =>
    exact (perm_insertByName x (sortByName xs)).trans (List.Perm.cons x ih)

theorem mem_sortByName {sp : Species} {l : List Species} :
    sp ∈ sortByName l ↔ sp ∈ l :=
  (perm_sortByName l).mem_iff

theorem sorted_insertByName (sp : Species) (l : List Species)
    (h : List.Sorted nameLe l) : List.Sorted nameLe (insertByName sp l) := by
  induction l with
  | nil => simp [insertByName]
  | cons t ts ih =>
    rcases List.sorted_cons.mp h with ⟨ht, hts⟩
    by_cases hlt : strLt sp.species_name t.species_name = true
    · simp only [insertByName, hlt, if_true]
      refine List.sorted_cons.mpr ⟨?_, h⟩
      intro y hy
      rcases List.mem_cons.mp hy with rfl | hy2
      · exact charListLt_asymm _ _ hlt
      · cases hyx : strLt y.species_name sp.species_name with
        | false => exact hyx
        | true =>
          have h5 : strLt y.species_name t.species_name = true :=
            charListLt_trans _ _ _ hyx hlt
          rw [ht y hy2] at h5
          exact absurd h5 (by simp)
    · simp only [insertByName, hlt, if_false]
      refine List.sorted_cons.mpr ⟨?_, ih hts⟩
      intro y hy
      rcases mem_insertByName.mp hy with rfl | hy2
      · simpa using hlt
      · exact ht y hy2

theorem sorted_sortByName (l : List Species) : List.Sorted nameLe (sortByName l) := by
  induction l with
  | nil => simp [sortByName]
  | cons x xs ih => exact sorted_insertByName x (sortByName xs) ih

theorem importStep_zero (s : ImportState) (row : Row) : importStep s 0 row = s := rfl

theorem importStep_blank (s : ImportState) (idx : ℕ) (row : Row) (hidx : idx ≠ 0)
    (hk : keyOf row = "" ∨ keyOf row = "nan") :
    importStep s idx row =
      { s with failed := s.failed + 1
               errors := s.errors ++
                 ["行" ++ toString (idx + 1) ++ ": 物种名称为空"] } := by
  simp [importStep, hidx, hk]

theorem importStep_dup (s : ImportState) (idx : ℕ) (row : Row) (hidx : idx ≠ 0)
    (h1 : ¬(keyOf row = "" ∨ keyOf row = "nan")) (h2 : keyOf row ∈ s.existing) :
    importStep s idx row = { s with duplicates := s.duplicates + 1 } := by
  simp [importStep, hidx, h1, h2]

theorem importStep_ok (s : ImportState) (idx : ℕ) (row : Row) (sp : Species)
    (hidx : idx ≠ 0) (h1 : ¬(keyOf row = "" ∨ keyOf row = "nan"))
    (h2 : keyOf row ∉ s.existing)
    (hb : buildSpeciesData row (keyOf row) = Except.ok sp) :
    importStep s idx row =
      { s with db := s.db ++ [sp]
               success := s.success + 1
               existing := s.existing ++ [keyOf row] } := by
  simp [importStep, hidx, h1, h2, hb]

theorem importStep_err (s : ImportState) (idx : ℕ) (row : Row) (e : String)
    (hidx : idx ≠ 0) (h1 : ¬(keyOf row = "" ∨ keyOf row = "nan"))
    (h2 : keyOf row ∉ s.existing)
    (hb : buildSpeciesData row (keyOf row) = Except.error e) :
    importStep s idx row =
      { s with failed := s.failed + 1
               errors := s.errors ++
                 [pyStrip (pyStr (rowGet row "物种"
                   (Cell.str ("行" ++ toString (idx + 1))))) ++ ": " ++ e] } := by
  simp [importStep, hidx, h1, h2, hb]

theorem species_name_of_buildOk {row : Row} {n : String} {sp : Species}
    (hb : buildSpeciesData row n = Except.ok sp) : sp.species_name = n := by
  cases hs : serialOf row with
  | ok k =>
    rw [buildSpeciesData, hs] at hb
    simp only [Except.map] at hb
    cases hb
    rfl
  | error e =>
    rw [buildSpeciesData, hs] at hb
    simp [Except.map] at hb

theorem counted_importStep_le (s : ImportState) (idx : ℕ) (row : Row) :
    counted (importStep s idx row) ≤ counted s + 1 := by
  by_cases h0 : idx = 0
  · subst h0
    rw [importStep_zero]
    omega
  · by_cases hk : keyOf row = "" ∨ keyOf row = "nan"
    · rw [importStep_blank s idx row h0 hk]
      simp only [counted]
      omega
    · by_cases hd : keyOf row ∈ s.existing
      · rw [importStep_dup s idx row h0 hk hd]
        simp only [counted]
        omega
      · cases hb : buildSpeciesData row (keyOf row) with
        | ok sp =>
          rw [importStep_ok s idx row sp h0 hk hd hb]
          simp only [counted]
          omega
        | error e =>
          rw [importStep_err s idx row e h0 hk hd hb]
          simp only [counted]
          omega

theorem counted_importRows_le (s : ImportState) (idx : ℕ) (rows : List Row) :
    counted (importRows s idx rows) ≤ counted s + rows.length := by
  induction rows generalizing s idx with
  | nil => simp [importRows]
  | cons r rest ih =>
    have h1 := ih (importStep s idx r) (idx + 1)
    have h2 := counted_importStep_le s idx r
    simp only [importRows, List.length_cons]
    omega

theorem importRows_append_single (s : ImportState) (i : ℕ) (l : List Row) (r : Row) :
    importRows s i (l ++ [r]) = importStep (importRows s i l) (i + l.length) r := by
  induction l generalizing s i with
  | nil => simp [importRows]
  | cons x xs ih =>
    simp only [List.cons_append, importRows, List.length_cons, List.append_eq]
    rw [ih, show i + 1 + xs.length = i + (xs.length + 1) from by omega]

theorem mem_search_iff (db : DB) (query : String)
    (filters : List (Col × FilterVal)) (sp : Species) :
    sp ∈ search_species db query filters ↔
      sp ∈ db ∧ ((query == "" || matchesQuery sp query) &&
        filters.all (fun fv => fieldMatches sp fv.1 fv.2)) = true := by
  unfold search_species
  rw [mem_sortByName, List.mem_filter]

theorem fieldMatches_nonNumeric (sp : Species) (f : Col) (v : FilterVal)
    (hf : f ∉ numeric_fields) :
    fieldMatches sp f v =
      likeContains ((sqlValLikeStr (getField sp f)).getD "") (filterValStr v) := by
  cases f <;> first
    | exact absurd (by decide) hf
    | simp [fieldMatches, hf, getField, sqlValLikeStr]


theorem splitDash_append (a b : List Char) (ha : '-' ∉ a) :
    splitDash (a ++ '-' :: b) = a :: splitDash b := by
  induction a with
  | nil => simp [splitDash]
  | cons c cs ih =>
    have hc : ¬ c = '-' := fun h => ha (by rw [h]; exact List.mem_cons_self _ _)
    have hcs : '-' ∉ cs := fun h => ha (List.mem_cons_of_mem _ h)
    simp [splitDash, hc, ih hcs]

/-- Claim C2 (confirmed): numeric coercion maps a dash-separated range such
as "3-8" to its lower bound 3 only (in general, a dash-separated string
parses as just the part before the first dash), and maps the placeholder
"未明确", "nan" and the empty string to `none` (absent), never to 0;
`_parse_integer` behaves the same and then truncates to an integer. -/
theorem C2_parse_numeric_range_and_placeholders :
    parse_numeric "3-8" = some 3 ∧
    parse_integer "3-8" = some 3 ∧
    (∀ s : String, (s = "" ∨ pyLower s = "未明确" ∨ pyLower s = "nan") →
      parse_numeric s = none ∧ parse_integer s = none) ∧
    (∀ a b : List Char, '-' ∉ a →
      ¬(String.mk (a ++ '-' :: b) = "" ∨
        pyLower (String.mk (a ++ '-' :: b)) ∈ (["未明确", "nan", ""] : List String)) →
      parse_numeric (String.mk (a ++ '-' :: b)) = pyFloat (pyStrip (String.mk a))) ∧
    parse_integer "3.9" = some 3 := by
  refine ⟨by decide, by decide, ?_, ?_, by decide⟩
  · intro s hs
    have hcond : s = "" ∨ pyLower s ∈ (["未明确", "nan", ""] : List String) := by
      rcases hs with h | h | h
      · exact Or.inl h
      · exact Or.inr (by simp [h])
      · exact Or.inr (by simp [h])
    constructor
    · unfold parse_numeric
      rw [if_pos hcond]
    · unfold parse_integer parse_numeric
      rw [if_pos hcond]
      rfl
  · intro a b ha hcond
    have hdata : (String.mk (a ++ '-' :: b)).data = a ++ '-' :: b := rfl
    have hmem : '-' ∈ (String.mk (a ++ '-' :: b)).data := by
      rw [hdata]
      exact List.mem_append_right a (List.mem_cons_self _ _)
    unfold parse_numeric
    rw [if_neg hcond, if_pos hmem, hdata, splitDash_append a b ha]
    rfl

/-- Claim C2 witness: the range branch of the theorem applied at "3" and
"8", together with the placeholder branch at "未明确". -/
theorem C2_witness :
    (parse_numeric (String.mk (['3'] ++ '-' :: ['8'])) =
      pyFloat (pyStrip (String.mk ['3']))) ∧
    (parse_numeric "未明确" = none ∧ parse_integer "未明确" = none) :=
  ⟨C2_parse_numeric_range_and_placeholders.2.2.2.1 ['3'] ['8'] (by decide) (by decide),
   C2_parse_numeric_range_and_placeholders.2.2.1 "未明确" (Or.inr (Or.inl (by decide)))⟩

/-- Claim C4 (counterexample): the claim says a text-kind cell holding the
placeholder 未明确 is stored as the empty string; in fact importing a row
with 株型 = "未明确" stores the placeholder verbatim. -/
theorem C4_counterexample :
    ((import_from_excel_df []
        [[], [("物种", Cell.str "X"), ("株型", Cell.str "未明确")]]).1.map
      (fun sp => sp.growth_form)) = ["未明确"] ∧ ("未明确" : String) ≠ "" := by
  decide

/-- Claim C4 (amended, confirmed): for every imported row and text-kind
column, the importer trims surrounding whitespace and stores empty or NA
cells as the empty string; the literal placeholder 未明确 is stored
verbatim (after trimming), not converted to the empty string. -/
theorem C4_text_coercion :
    (∀ (row : Row) (col : String), rowLookup row col = none →
      getText row col = "") ∧
    (∀ (row : Row) (col : String), rowLookup row col = some Cell.nan →
      getText row col = "") ∧
    (∀ (row : Row) (col : String) (s : String),
      rowLookup row col = some (Cell.str s) → getText row col = pyStrip s) ∧
    (∀ (row : Row) (n : String) (sp : Species),
      buildSpeciesData row n = Except.ok sp →
      sp.growth_form = getText row "株型" ∧ sp.leaf_shape = getText row "叶形") ∧
    getText [("株型", Cell.str " 未明确 ")] "株型" = "未明确" := by
  refine ⟨?_, ?_, ?_, ?_, by decide⟩
  · intro row col h
    simp [getText, notna, h]
  · intro row col h
    simp [getText, notna, h]
  · intro row col s h
    simp [getText, notna, rowGet, h, pyStr]
  · intro row n sp hb
    cases hs : serialOf row with
    | ok k =>
      rw [buildSpeciesData, hs] at hb
      simp only [Except.map] at hb
      cases hb
      exact ⟨rfl, rfl⟩
    | error e =>
      rw [buildSpeciesData, hs] at hb
      simp [Except.map] at hb

/-- Claim C4 witness: the string branch of the theorem at a concrete cell. -/
theorem C4_witness :
    getText [("c", Cell.str " x ")] "c" = pyStrip " x " :=
  C4_text_coercion.2.2.1 [("c", Cell.str " x ")] "c" " x " (by decide)

/-- Claim C8 (confirmed): after `clear_database` every scan or search
returns an empty result: `get_all_species` and `search_species` (for any
query and filters) return the empty list, `get_species_by_name` finds
nothing, and the species count statistic is 0. -/
theorem C8_clear_database (db : DB) (query : String)
    (filters : List (Col × FilterVal)) (name : String) (limit : ℕ) :
    clear_database db = [] ∧
    get_all_species (clear_database db) limit = [] ∧
    search_species (clear_database db) query filters = [] ∧
    get_species_by_name (clear_database db) name = none ∧
    (get_statistics (clear_database db)).total_species = 0 := by
  refine ⟨rfl, ?_, ?_, rfl, rfl⟩
  · simp [clear_database, get_all_species, sortByName]
  · simp [clear_database, search_species, sortByName]

/-- Claim C3 (counterexample): the claim says every row with a blank or
missing natural key is counted in `failed`; but a DataFrame whose only row
(at positional index 0) has a blank 物种 reports `failed` = 0 with no error
message, because `import_from_excel_df` skips index 0 before the key check. -/
theorem C3_counterexample :
    (import_from_excel_df [] [[("物种", Cell.str "")]]).2.failed = 0 ∧
    (import_from_excel_df [] [[("物种", Cell.str "")]]).2.errors = [] := by
  decide

/-- Claim C3 (amended, confirmed): for every row at positional index ≥ 1
whose natural-key column 物种 is blank, missing, or NaN, the import counts
that row in `failed` with a per-row error message and never in `success` or
`duplicates`, and inserts nothing, regardless of the other columns; in
particular, appending such a row to any DataFrame with at least one earlier
row increments exactly the `failed` counter of the report. -/
theorem C3_blank_key_failed :
    (∀ (s : ImportState) (idx : ℕ) (row : Row), idx ≠ 0 →
      (rowLookup row "物种" = none ∨ keyOf row = "" ∨ keyOf row = "nan") →
      importStep s idx row =
        { s with failed := s.failed + 1
                 errors := s.errors ++
                   ["行" ++ toString (idx + 1) ++ ": 物种名称为空"] }) ∧
    (∀ (db : DB) (pre : List Row) (row : Row), pre ≠ [] →
      (rowLookup row "物种" = none ∨ keyOf row = "" ∨ keyOf row = "nan") →
      (import_from_excel_df db (pre ++ [row])).2.failed =
        (import_from_excel_df db pre).2.failed + 1 ∧
      (import_from_excel_df db (pre ++ [row])).2.success =
        (import_from_excel_df db pre).2.success ∧
      (import_from_excel_df db (pre ++ [row])).2.duplicates =
        (import_from_excel_df db pre).2.duplicates ∧
      (import_from_excel_df db (pre ++ [row])).1 =
        (import_from_excel_df db pre).1 ∧
      (import_from_excel_df db (pre ++ [row])).2.errors =
        (import_from_excel_df db pre).2.errors ++
          ["行" ++ toString (pre.length + 1) ++ ": 物种名称为空"]) := by
  have hblank : ∀ row : Row,
      (rowLookup row "物种" = none ∨ keyOf row = "" ∨ keyOf row = "nan") →
      keyOf row = "" ∨ keyOf row = "nan" := by
    intro row h
    rcases h with h | h | h
    · left
      show pyStrip (pyStr (rowGet row "物种" (Cell.str ""))) = ""
      rw [rowGet, h]
      rfl
    · exact Or.inl h
    · exact Or.inr h
  constructor
  · intro s idx row hidx hk
    exact importStep_blank s idx row hidx (hblank row hk)
  · intro db pre row hpre hk
    have hstep := importStep_blank
      (importRows
        { db := db, existing := get_all_species_names db, success := 0,
          failed := 0, duplicates := 0, errors := [] } 0 pre)
      pre.length row (by simp [hpre]) (hblank row hk)
    have hrun : import_from_excel_df db (pre ++ [row]) =
        (let fin := importStep
          (importRows
            { db := db, existing := get_all_species_names db, success := 0,
              failed := 0, duplicates := 0, errors := [] } 0 pre)
          pre.length row
         (fin.db,
          { total := (pre ++ [row]).length, success := fin.success,
            failed := fin.failed, errors := fin.errors,
            duplicates := fin.duplicates })) := by
      unfold import_from_excel_df
      rw [importRows_append_single]
      simp
    rw [hrun, hstep]
    refine ⟨rfl, rfl, rfl, rfl, rfl⟩

/-- Claim C3 witness: the run-level branch of the theorem at a concrete
one-row prefix and a whitespace-keyed row. -/
theorem C3_witness :
    (import_from_excel_df [] ([[]] ++ [[("物种", Cell.str " ")]])).2.failed =
      (import_from_excel_df [] [[]]).2.failed + 1 ∧
    (import_from_excel_df [] ([[]] ++ [[("物种", Cell.str " ")]])).2.success =
      (import_from_excel_df [] [[]]).2.success ∧
    (import_from_excel_df [] ([[]] ++ [[("物种", Cell.str " ")]])).2.duplicates =
      (import_from_excel_df [] [[]]).2.duplicates ∧
    (import_from_excel_df [] ([[]] ++ [[("物种", Cell.str " ")]])).1 =
      (import_from_excel_df [] [[]]).1 ∧
    (import_from_excel_df [] ([[]] ++ [[("物种", Cell.str " ")]])).2.errors =
      (import_from_excel_df [] [[]]).2.errors ++
        ["行" ++ toString (List.length ([[]] : List Row) + 1) ++ ": 物种名称为空"] :=
  C3_blank_key_failed.2 [] [[]] [("物种", Cell.str " ")] (by decide) (by decide)

/-- Claim C9 (confirmed): a malformed row (the per-row serial-number
coercion raising) never aborts the batch: it is recorded in `failed` with a
human-readable message, inserts nothing, and the loop continues with the
remaining rows; the report `(total, success, failed, duplicates, errors)` is
always returned, including for an empty DataFrame, with `total` equal to
the row count. -/
theorem C9_row_errors_isolated :
    (∀ (s : ImportState) (idx : ℕ) (row : Row) (e : String), idx ≠ 0 →
      ¬(keyOf row = "" ∨ keyOf row = "nan") → keyOf row ∉ s.existing →
      buildSpeciesData row (keyOf row) = Except.error e →
      importStep s idx row =
        { s with failed := s.failed + 1
                 errors := s.errors ++
                   [pyStrip (pyStr (rowGet row "物种"
                     (Cell.str ("行" ++ toString (idx + 1))))) ++ ": " ++ e] }) ∧
    (∀ (s : ImportState) (idx : ℕ) (row : Row) (rest : List Row),
      importRows s idx (row :: rest) =
        importRows (importStep s idx row) (idx + 1) rest) ∧
    (∀ (db : DB) (df : List Row),
      (import_from_excel_df db df).2.total = df.length) ∧
    (∀ db : DB, import_from_excel_df db [] =
      (db, { total := 0, success := 0, failed := 0, errors := [],
             duplicates := 0 })) := by
  refine ⟨?_, ?_, ?_, ?_⟩
  · intro s idx row e hidx h1 h2 hb
    exact importStep_err s idx row e hidx h1 h2 hb
  · intro s idx row rest
    rfl
  · intro db df
    rfl
  · intro db
    rfl

/-- Claim C9 witness: the error branch of the theorem at a row whose 序号
cell is the unparseable string "abc". -/
theorem C9_witness :
    importStep
      { db := [], existing := [], success := 0, failed := 0,
        duplicates := 0, errors := [] } 1
      [("物种", Cell.str "X"), ("序号", Cell.str "abc")] =
      { db := [], existing := [], success := 0, failed := 1,
        duplicates := 0,
        errors := ["X: invalid literal for int() with base 10: abc"] } :=
  C9_row_errors_isolated.1
    { db := [], existing := [], success := 0, failed := 0,
      duplicates := 0, errors := [] } 1
    [("物种", Cell.str "X"), ("序号", Cell.str "abc")]
    "invalid literal for int() with base 10: abc"
    (by decide) (by decide) (by decide) rfl

/-- Claim C10 (confirmed): `import_from_excel_df` always skips the row at
positional index 0 (treating it as a header): the step at index 0 changes
nothing, so for every non-empty DataFrame the reported total equals the
number of rows while success + failed + duplicates is strictly below it. -/
theorem C10_skips_first_row :
    (∀ (s : ImportState) (row : Row), importStep s 0 row = s) ∧
    (∀ (db : DB) (df : List Row), df ≠ [] →
      (import_from_excel_df db df).2.total = df.length ∧
      (import_from_excel_df db df).2.success +
        (import_from_excel_df db df).2.failed +
        (import_from_excel_df db df).2.duplicates < df.length) := by
  constructor
  · intro s row
    rfl
  · intro db df hdf
    cases df with
    | nil => exact absurd rfl hdf
    | cons r rest =>
      refine ⟨rfl, ?_⟩
      have hle := counted_importRows_le
        { db := db, existing := get_all_species_names db, success := 0,
          failed := 0, duplicates := 0, errors := [] } 1 rest
      have heq : (import_from_excel_df db (r :: rest)).2.success +
          (import_from_excel_df db (r :: rest)).2.failed +
          (import_from_excel_df db (r :: rest)).2.duplicates =
          counted (importRows
            { db := db, existing := get_all_species_names db, success := 0,
              failed := 0, duplicates := 0, errors := [] } 1 rest) := rfl
      have hc0 : counted ({ db := db, existing := get_all_species_names db,
                            success := 0, failed := 0, duplicates := 0,
                            errors := [] } : ImportState) = 0 := rfl
      rw [heq]
      simp only [List.length_cons]
      omega

/-- Claim C10 witness: a one-row DataFrame whose single (valid) row is
skipped: total is 1 while no row is counted at all. -/
theorem C10_witness :
    (import_from_excel_df [] [[("物种", Cell.str "X")]]).2.total = 1 ∧
    (import_from_excel_df [] [[("物种", Cell.str "X")]]).2.success +
      (import_from_excel_df [] [[("物种", Cell.str "X")]]).2.failed +
      (import_from_excel_df [] [[("物种", Cell.str "X")]]).2.duplicates < 1 :=
  C10_skips_first_row.2 [] [[("物种", Cell.str "X")]] (by decide)

/-- Claim C1 (counterexample): the claim promises `success = 1` for the
first import of any DataFrame holding one valid row; a DataFrame whose
only (valid) row sits at positional index 0 is skipped entirely, and the
first import reports `success = 0`. -/
theorem C1_counterexample :
    (import_from_excel_df [] [[("物种", Cell.str "北柴胡")]]).2.success = 0 ∧
    ¬ (import_from_excel_df [] [[("物种", Cell.str "北柴胡")]]).2.success = 1 := by
  decide

/-- Claim C1 (amended, confirmed): for every DataFrame made of a
header-placeholder row at index 0 followed by one valid row, the first
call on an empty store yields `success = 1`, and a second call with
the same DataFrame yields `duplicates = 1`, `success = 0`, with the stored
row count unchanged. -/
theorem C1_import_twice (hdr row : Row)
    (h1 : ¬(keyOf row = "" ∨ keyOf row = "nan"))
    (sp : Species) (hb : buildSpeciesData row (keyOf row) = Except.ok sp) :
    (import_from_excel_df [] [hdr, row]).2.success = 1 ∧
    (import_from_excel_df [] [hdr, row]).2.duplicates = 0 ∧
    (import_from_excel_df [] [hdr, row]).1 = [sp] ∧
    (import_from_excel_df (import_from_excel_df [] [hdr, row]).1
      [hdr, row]).2.duplicates = 1 ∧
    (import_from_excel_df (import_from_excel_df [] [hdr, row]).1
      [hdr, row]).2.success = 0 ∧
    (import_from_excel_df (import_from_excel_df [] [hdr, row]).1
      [hdr, row]).1.length = (import_from_excel_df [] [hdr, row]).1.length := by
  have hname : sp.species_name = keyOf row := species_name_of_buildOk hb
  have hstep1 : importStep ({ db := [], existing := get_all_species_names [],
                              success := 0, failed := 0, duplicates := 0,
                              errors := [] } : ImportState) 1 row =
      { db := [sp], existing := [keyOf row], success := 1, failed := 0,
        duplicates := 0, errors := [] } := by
    rw [importStep_ok _ 1 row sp (by omega) h1
      (by simp [get_all_species_names]) hb]
    rfl
  have hrun1 : import_from_excel_df [] [hdr, row] =
      ([sp], { total := 2, success := 1, failed := 0, errors := [],
               duplicates := 0 }) := by
    unfold import_from_excel_df
    simp only [importRows, importStep_zero]
    rw [hstep1]
    rfl
  have hstep2 : importStep ({ db := [sp],
                              existing := get_all_species_names [sp],
                              success := 0, failed := 0,
                              duplicates := 0,
                              errors := [] } : ImportState) 1 row =
      { db := [sp], existing := get_all_species_names [sp], success := 0,
        failed := 0, duplicates := 1, errors := [] } := by
    rw [importStep_dup _ 1 row (by omega) h1
      (by simp [get_all_species_names, hname])]
  have hrun2 : import_from_excel_df [sp] [hdr, row] =
      ([sp], { total := 2, success := 0, failed := 0, errors := [],
               duplicates := 1 }) := by
    unfold import_from_excel_df
    simp only [importRows, importStep_zero]
    rw [hstep2]
    rfl
  refine ⟨?_, ?_, ?_, ?_, ?_, ?_⟩ <;> simp [hrun1, hrun2]

/-- Claim C1 witness: the amended theorem at an empty header row and the
single valid row 物种 = 北柴胡. -/
theorem C1_witness :
    (import_from_excel_df [] [[], [("物种", Cell.str "北柴胡")]]).2.success = 1 ∧
    (import_from_excel_df [] [[], [("物种", Cell.str "北柴胡")]]).2.duplicates = 0 ∧
    (import_from_excel_df [] [[], [("物种", Cell.str "北柴胡")]]).1 =
      [mkSpecies [("物种", Cell.str "北柴胡")] "北柴胡" 0] ∧
    (import_from_excel_df (import_from_excel_df []
      [[], [("物种", Cell.str "北柴胡")]]).1
      [[], [("物种", Cell.str "北柴胡")]]).2.duplicates = 1 ∧
    (import_from_excel_df (import_from_excel_df []
      [[], [("物种", Cell.str "北柴胡")]]).1
      [[], [("物种", Cell.str "北柴胡")]]).2.success = 0 ∧
    (import_from_excel_df (import_from_excel_df []
      [[], [("物种", Cell.str "北柴胡")]]).1
      [[], [("物种", Cell.str "北柴胡")]]).1.length =
      (import_from_excel_df [] [[], [("物种", Cell.str "北柴胡")]]).1.length :=
  C1_import_twice [] [("物种", Cell.str "北柴胡")] (by decide)
    (mkSpecies [("物种", Cell.str "北柴胡")] "北柴胡" 0) rfl

/-- Claim C5 (confirmed): for a non-empty free-text query and no filters,
`search_species` returns exactly the stored records in which at least one
of species_name, leaf_shape, fruit_shape contains the query as a substring
(the embedded `LIKE` percent-pattern match), with no tokenization or
ranking: the result is a permutation of the plain filter of the table, and
membership is exactly the three-column containment disjunction. -/
theorem C5_search_substring (db : DB) (query : String) (hq : query ≠ "") :
    (search_species db query []).Perm
      (db.filter (fun sp => matchesQuery sp query)) ∧
    (∀ sp : Species, sp ∈ search_species db query [] ↔
      sp ∈ db ∧ (likeContains sp.species_name query = true ∨
        likeContains sp.leaf_shape query = true ∨
        likeContains sp.fruit_shape query = true)) := by
  have hbq : (query == "") = false := by simp [hq]
  constructor
  · have hcong : List.filter
        (fun sp => (query == "" || matchesQuery sp query) &&
          ([] : List (Col × FilterVal)).all
            (fun fv => fieldMatches sp fv.1 fv.2)) db =
        List.filter (fun sp => matchesQuery sp query) db :=
      List.filter_congr (fun sp _ => by simp [hbq])
    unfold search_species
    rw [hcong]
    exact perm_sortByName _
  · intro sp
    rw [mem_search_iff]
    simp [hbq, matchesQuery, Bool.or_eq_true, or_assoc]

/-- Claim C5 witness: membership characterization at a one-record store
and the query 柴. -/
theorem C5_witness :
    mkSpecies [] "北柴胡" 0 ∈ search_species [mkSpecies [] "北柴胡" 0] "柴" [] ↔
      mkSpecies [] "北柴胡" 0 ∈ [mkSpecies [] "北柴胡" 0] ∧
      (likeContains (mkSpecies [] "北柴胡" 0).species_name "柴" = true ∨
       likeContains (mkSpecies [] "北柴胡" 0).leaf_shape "柴" = true ∨
       likeContains (mkSpecies [] "北柴胡" 0).fruit_shape "柴" = true) :=
  (C5_search_substring [mkSpecies [] "北柴胡" 0] "柴" (by decide)).2
    (mkSpecies [] "北柴胡" 0)

/-- Claim C6 (confirmed): in `search_species`, a constraint on a column of
the declared `numeric_fields` list filters as a lower bound (column ≥
value, NULL excluded), a constraint on any other column filters as LIKE
substring containment, and all constraints plus the free-text clause are
conjoined. -/
theorem C6_filter_semantics (db : DB) (query : String)
    (filters : List (Col × FilterVal)) (sp : Species) :
    sp ∈ search_species db query filters ↔
      sp ∈ db ∧ (query = "" ∨ matchesQuery sp query = true) ∧
      (∀ fv ∈ filters,
        (fv.1 ∈ numeric_fields → sqlGe (getField sp fv.1) fv.2 = true) ∧
        (fv.1 ∉ numeric_fields →
          likeContains ((sqlValLikeStr (getField sp fv.1)).getD "")
            (filterValStr fv.2) = true)) := by
  rw [mem_search_iff]
  refine and_congr_right (fun _ => ?_)
  simp only [Bool.and_eq_true, Bool.or_eq_true, List.all_eq_true, beq_iff_eq]
  refine and_congr_right (fun _ => forall₂_congr (fun fv hfv => ?_))
  by_cases hf : fv.1 ∈ numeric_fields
  · simp [fieldMatches, hf]
  · rw [fieldMatches_nonNumeric sp fv.1 fv.2 hf]
    simp [hf]

/-- Claim C6 witness: the characterization at a store with one record, no
query, and one numeric lower-bound filter. -/
theorem C6_witness :
    mkSpecies [("最小株高(厘米)", Cell.str "30")] "a" 1 ∈
      search_species [mkSpecies [("最小株高(厘米)", Cell.str "30")] "a" 1] ""
        [(Col.min_height_cm, FilterVal.num 20)] ↔
      mkSpecies [("最小株高(厘米)", Cell.str "30")] "a" 1 ∈
        [mkSpecies [("最小株高(厘米)", Cell.str "30")] "a" 1] ∧
      (("" : String) = "" ∨
        matchesQuery (mkSpecies [("最小株高(厘米)", Cell.str "30")] "a" 1) "" = true) ∧
      (∀ fv ∈ [(Col.min_height_cm, FilterVal.num 20)],
        (fv.1 ∈ numeric_fields →
          sqlGe (getField (mkSpecies [("最小株高(厘米)", Cell.str "30")] "a" 1) fv.1)
            fv.2 = true) ∧
        (fv.1 ∉ numeric_fields →
          likeContains ((sqlValLikeStr (getField
            (mkSpecies [("最小株高(厘米)", Cell.str "30")] "a" 1) fv.1)).getD "")
            (filterValStr fv.2) = true)) :=
  C6_filter_semantics [mkSpecies [("最小株高(厘米)", Cell.str "30")] "a" 1] ""
    [(Col.min_height_cm, FilterVal.num 20)]
    (mkSpecies [("最小株高(厘米)", Cell.str "30")] "a" 1)

/-- Claim C7 (confirmed): the query layer with an empty query and no
constraints is deterministic and a full scan: it equals the whole table
sorted by species_name ascending (a sorted permutation of the store), and
`get_all_species` with a limit at least the table size returns the same
list. -/
theorem C7_empty_query_full_scan (db : DB) (limit : ℕ) :
    search_species db "" [] = sortByName db ∧
    (sortByName db).Perm db ∧
    List.Sorted nameLe (sortByName db) ∧
    (db.length ≤ limit → get_all_species db limit = search_species db "" []) := by
  have h1 : search_species db "" [] = sortByName db := by
    unfold search_species
    congr 1
    refine List.filter_eq_self.mpr (fun sp _ => ?_)
    simp
  refine ⟨h1, perm_sortByName db, sorted_sortByName db, fun hl => ?_⟩
  have hlen : (sortByName db).length = db.length := (perm_sortByName db).length_eq
  unfold get_all_species
  rw [List.take_of_length_le (by omega), h1]

/-- Claim C7 witness: the limit branch of the theorem at a two-record
store and limit 5. -/
theorem C7_witness :
    get_all_species [mkSpecies [] "b" 0, mkSpecies [] "a" 0] 5 =
      search_species [mkSpecies [] "b" 0, mkSpecies [] "a" 0] "" [] :=
  (C7_empty_query_full_scan [mkSpecies [] "b" 0, mkSpecies [] "a" 0] 5).2.2.2
    (by decide)
